import Mathlib

/-
Verification of the dice-rolling simulator: a shallow embedding of the
movement / collision physics (src/die.rs, src/directions.rs), the result
resolvers (src/table.rs) and the two-digit display predicate (src/util.rs),
with theorems about the behaviour of those functions.
-/

namespace Dice

/-- Movement directions of a die (src/directions.rs, `enum Direction`). -/
inductive Direction where
  | none | up | down | left | right | upLeft | upRight | downLeft | downRight
deriving DecidableEq

/-- Die kinds (src/die.rs, `enum D`). -/
inductive D where
  | two | four | six | ten | twelve | twenty | percentTens | percentOnes
deriving DecidableEq

/-- `D::value` (src/die.rs): the max of the raw uniform draw range `1..=value`. -/
def D.value : D → Nat
  | .two => 2
  | .four => 4
  | .six => 6
  | .ten => 10
  | .twelve => 12
  | .twenty => 20
  | .percentTens => 10
  | .percentOnes => 10

/-- `D::acceleration` (src/die.rs): signed speed lost per flip for each kind. -/
def D.acceleration : D → Int
  | .two => -10
  | .four => -7
  | .six => -4
  | .ten => -3
  | .twelve => -2
  | .twenty => -1
  | .percentTens => -3
  | .percentOnes => -3

/-- The deterministic part of `D::flip` (src/die.rs): maps the raw uniform
draw `value ∈ 1..=kind.value()` to the displayed face. -/
def displayValue (kind : D) (draw : Nat) : Nat :=
  match kind with
  | .percentTens => 10 * (draw - 1)
  | .percentOnes => draw - 1
  | _ => draw

/-- `is_two_digits` (src/util.rs): whether the rendered face occupies two
character cells. -/
def is_two_digits (face : Nat) (kind : D) : Bool :=
  if 10 ≤ face ∨ kind = D.percentTens then true else false

/-- The effective right wall used by `Die::detect_wall` (src/die.rs):
`r_wall` starts at the terminal width `w` and is decremented by one when the
current face renders as two digits. -/
def rWall (w face : Nat) (kind : D) : Nat :=
  if is_two_digits face kind then w - 1 else w

/-- `Die::will_collide` (src/die.rs): is the die's direction `dir` headed
into an obstacle lying on side `surface` of the die? -/
def willCollide (dir surface : Direction) : Bool :=
  match surface with
  | .none => false
  | .up =>
    match dir with
    | .up | .upLeft | .upRight => true
    | _ => false
  | .down =>
    match dir with
    | .down | .downLeft | .downRight => true
    | _ => false
  | .left =>
    match dir with
    | .left | .upLeft | .downLeft => true
    | _ => false
  | .right =>
    match dir with
    | .right | .upRight | .downRight => true
    | _ => false
  | .upLeft =>
    match dir with
    | .down | .right | .downRight => false
    | _ => true
  | .upRight =>
    match dir with
    | .down | .left | .downLeft => false
    | _ => true
  | .downLeft =>
    match dir with
    | .up | .right | .upRight => false
    | _ => true
  | .downRight =>
    match dir with
    | .up | .left | .upLeft => false
    | _ => true

/-- `Die::bounce` (src/die.rs): the post-collision direction. `wall` is true
for a collision against a vertical surface; `redirect` and `opt` are the two
random draws (`redirect` the 1-in-5 draw, `opt` the coin toss between the
two altered trajectories). -/
def bounce (dir : Direction) (wall redirect opt : Bool) : Direction :=
  match dir with
  | .up =>
    match redirect, opt with
    | false, _ => .down
    | true, false => .downLeft
    | true, true => .downRight
  | .down =>
    match redirect, opt with
    | false, _ => .up
    | true, false => .upLeft
    | true, true => .upRight
  | .left =>
    match redirect, opt with
    | false, _ => .right
    | true, false => .upRight
    | true, true => .downRight
  | .right =>
    match redirect, opt with
    | false, _ => .left
    | true, false => .upLeft
    | true, true => .downLeft
  | .upLeft =>
    match wall, redirect with
    | false, false => .downLeft
    | true, false => .upRight
    | false, true => .down
    | true, true => .right
  | .upRight =>
    match wall, redirect with
    | false, false => .downRight
    | true, false => .upLeft
    | false, true => .down
    | true, true => .left
  | .downLeft =>
    match wall, redirect with
    | false, false => .upLeft
    | true, false => .downRight
    | false, true => .up
    | true, true => .right
  | .downRight =>
    match wall, redirect with
    | false, false => .upRight
    | true, false => .downLeft
    | false, true => .up
    | true, true => .left
  | .none => .none

/-- `Die::movement` (src/die.rs): moves the die one square along its current
trajectory.  Coordinates are 1-based (termion `Goto`). -/
def movement (pos : Nat × Nat) (dir : Direction) : Nat × Nat :=
  let (col, row) := pos
  match dir with
  | .none => (col, row)
  | .up => (col, row - 1)
  | .down => (col, row + 1)
  | .left => (col - 1, row)
  | .right => (col + 1, row)
  | .upLeft => (col - 1, row - 1)
  | .upRight => (col + 1, row - 1)
  | .downLeft => (col - 1, row + 1)
  | .downRight => (col + 1, row + 1)

/-- `Die::detect_wall` (src/die.rs), as a function of the terminal size
`(w, h)`, the current face and kind (which fix `r_wall` via `rWall`), the
two random draws consumed by `bounce`, and the die's position `(c, r)` and
direction.  `l_wall = ceiling = 1` and `floor = h` as in the source; the
guards are tried in source order.  Returns the (possibly changed) direction. -/
def detect_wall (w h face : Nat) (kind : D) (redirect opt : Bool)
    (c r : Nat) (dir : Direction) : Direction :=
  if c ≤ 1 ∧ r ≤ 1 then
    if willCollide dir .upLeft then .downRight else dir
  else if rWall w face kind ≤ c ∧ r ≤ 1 then
    if willCollide dir .upRight then .downLeft else dir
  else if c ≤ 1 ∧ h ≤ r then
    if willCollide dir .downLeft then .upRight else dir
  else if rWall w face kind ≤ c ∧ h ≤ r then
    if willCollide dir .downRight then .upLeft else dir
  else if c ≤ 1 then
    if willCollide dir .left then bounce dir true redirect opt else dir
  else if rWall w face kind ≤ c then
    if willCollide dir .right then bounce dir true redirect opt else dir
  else if h ≤ r then
    if willCollide dir .down then bounce dir false redirect opt else dir
  else if r ≤ 1 then
    if willCollide dir .up then bounce dir false redirect opt else dir
  else dir

/-- Whether `Die::detect_wall` detects a collision at all: the `will_collide`
query of the zone the position falls into, mirroring the guard order of
`detect_wall`; `false` in the interior. -/
def collision_detected (w h face : Nat) (kind : D) (c r : Nat)
    (dir : Direction) : Bool :=
  if c ≤ 1 ∧ r ≤ 1 then willCollide dir .upLeft
  else if rWall w face kind ≤ c ∧ r ≤ 1 then willCollide dir .upRight
  else if c ≤ 1 ∧ h ≤ r then willCollide dir .downLeft
  else if rWall w face kind ≤ c ∧ h ≤ r then willCollide dir .downRight
  else if c ≤ 1 then willCollide dir .left
  else if rWall w face kind ≤ c then willCollide dir .right
  else if h ≤ r then willCollide dir .down
  else if r ≤ 1 then willCollide dir .up
  else false

/-- Zone 1 of `detect_wall`: position within the top-left corner zone. -/
theorem dw_zone1 (w h face : Nat) (kind : D) (rd op : Bool) (c r : Nat) (dir : Direction)
    (h1 : c ≤ 1) (h2 : r ≤ 1) :
    detect_wall w h face kind rd op c r dir =
      if willCollide dir .upLeft then .downRight else dir := by
  unfold detect_wall
  rw [if_pos ⟨h1, h2⟩]

/-- Zone 2 of `detect_wall`: top-right corner zone (zone 1 did not match). -/
theorem dw_zone2 (w h face : Nat) (kind : D) (rd op : Bool) (c r : Nat) (dir : Direction)
    (h1 : ¬ c ≤ 1) (h2 : rWall w face kind ≤ c) (h3 : r ≤ 1) :
    detect_wall w h face kind rd op c r dir =
      if willCollide dir .upRight then .downLeft else dir := by
  unfold detect_wall
  rw [if_neg (fun hx => h1 hx.1), if_pos ⟨h2, h3⟩]

/-- Zone 3 of `detect_wall`: bottom-left corner zone. -/
theorem dw_zone3 (w h face : Nat) (kind : D) (rd op : Bool) (c r : Nat) (dir : Direction)
    (h1 : c ≤ 1) (h2 : ¬ r ≤ 1) (h3 : h ≤ r) :
    detect_wall w h face kind rd op c r dir =
      if willCollide dir .downLeft then .upRight else dir := by
  unfold detect_wall
  rw [if_neg (fun hx => h2 hx.2), if_neg (fun hx => h2 hx.2), if_pos ⟨h1, h3⟩]

/-- Zone 4 of `detect_wall`: bottom-right corner zone. -/
theorem dw_zone4 (w h face : Nat) (kind : D) (rd op : Bool) (c r : Nat) (dir : Direction)
    (h1 : ¬ c ≤ 1) (h2 : ¬ r ≤ 1) (h3 : rWall w face kind ≤ c) (h4 : h ≤ r) :
    detect_wall w h face kind rd op c r dir =
      if willCollide dir .downRight then .upLeft else dir := by
  unfold detect_wall
  rw [if_neg (fun hx => h1 hx.1), if_neg (fun hx => h2 hx.2), if_neg (fun hx => h1 hx.1),
    if_pos ⟨h3, h4⟩]

/-- Zone 5 of `detect_wall`: at the left wall away from the corners. -/
theorem dw_zone5 (w h face : Nat) (kind : D) (rd op : Bool) (c r : Nat) (dir : Direction)
    (h1 : c ≤ 1) (h2 : ¬ r ≤ 1) (h3 : ¬ h ≤ r) :
    detect_wall w h face kind rd op c r dir =
      if willCollide dir .left then bounce dir true rd op else dir := by
  unfold detect_wall
  rw [if_neg (fun hx => h2 hx.2), if_neg (fun hx => h2 hx.2), if_neg (fun hx => h3 hx.2),
    if_neg (fun hx => h3 hx.2), if_pos h1]

/-- Zone 6 of `detect_wall`: at the (possibly capped) right wall away from
the corners. -/
theorem dw_zone6 (w h face : Nat) (kind : D) (rd op : Bool) (c r : Nat) (dir : Direction)
    (h1 : ¬ c ≤ 1) (h2 : rWall w face kind ≤ c) (h3 : ¬ r ≤ 1) (h4 : ¬ h ≤ r) :
    detect_wall w h face kind rd op c r dir =
      if willCollide dir .right then bounce dir true rd op else dir := by
  unfold detect_wall
  rw [if_neg (fun hx => h1 hx.1), if_neg (fun hx => h3 hx.2), if_neg (fun hx => h1 hx.1),
    if_neg (fun hx => h4 hx.2), if_neg h1, if_pos h2]

/-- Zone 7 of `detect_wall`: at the floor away from walls and corners. -/
theorem dw_zone7 (w h face : Nat) (kind : D) (rd op : Bool) (c r : Nat) (dir : Direction)
    (h1 : ¬ c ≤ 1) (h2 : ¬ rWall w face kind ≤ c) (h3 : h ≤ r) :
    detect_wall w h face kind rd op c r dir =
      if willCollide dir .down then bounce dir false rd op else dir := by
  unfold detect_wall
  rw [if_neg (fun hx => h1 hx.1), if_neg (fun hx => h2 hx.1), if_neg (fun hx => h1 hx.1),
    if_neg (fun hx => h2 hx.1), if_neg h1, if_neg h2, if_pos h3]

/-- Zone 8 of `detect_wall`: at the ceiling away from walls and corners. -/
theorem dw_zone8 (w h face : Nat) (kind : D) (rd op : Bool) (c r : Nat) (dir : Direction)
    (h1 : ¬ c ≤ 1) (h2 : ¬ rWall w face kind ≤ c) (h3 : ¬ h ≤ r) (h4 : r ≤ 1) :
    detect_wall w h face kind rd op c r dir =
      if willCollide dir .up then bounce dir false rd op else dir := by
  unfold detect_wall
  rw [if_neg (fun hx => h1 hx.1), if_neg (fun hx => h2 hx.1), if_neg (fun hx => h1 hx.1),
    if_neg (fun hx => h2 hx.1), if_neg h1, if_neg h2, if_neg h3, if_pos h4]

/-- Zone 9 of `detect_wall`: interior, no guard matches, direction kept. -/
theorem dw_zone9 (w h face : Nat) (kind : D) (rd op : Bool) (c r : Nat) (dir : Direction)
    (h1 : ¬ c ≤ 1) (h2 : ¬ rWall w face kind ≤ c) (h3 : ¬ h ≤ r) (h4 : ¬ r ≤ 1) :
    detect_wall w h face kind rd op c r dir = dir := by
  unfold detect_wall
  rw [if_neg (fun hx => h1 hx.1), if_neg (fun hx => h2 hx.1), if_neg (fun hx => h1 hx.1),
    if_neg (fun hx => h2 hx.1), if_neg h1, if_neg h2, if_neg h3, if_neg h4]

/-- The kinetic part of a die's state (fields `position` and `direction` of
`struct Die`, src/die.rs). -/
structure DieKin where
  pos : Nat × Nat
  dir : Direction
deriving DecidableEq

/-- `Die::detect_wall` as a transformer of the kinetic state: the source
method only ever assigns `self.direction`. -/
def detect_wall_st (w h face : Nat) (kind : D) (redirect opt : Bool)
    (s : DieKin) : DieKin :=
  { s with dir := detect_wall w h face kind redirect opt s.pos.1 s.pos.2 s.dir }

/-- Position bounds of the arena: 1-based coordinates inside the terminal. -/
def inBounds (w h : Nat) (p : Nat × Nat) : Prop :=
  1 ≤ p.1 ∧ p.1 ≤ w ∧ 1 ≤ p.2 ∧ p.2 ≤ h

instance (w h : Nat) (p : Nat × Nat) : Decidable (inBounds w h p) := by
  unfold inBounds; infer_instance

/-- Full mutable state of a rolling die (`struct Die`, src/die.rs): current
face up, position, speed (signed, as the source's `i16`), and direction. -/
structure DieSt where
  faceUp : Nat
  pos : Nat × Nat
  speed : Int
  dir : Direction
deriving DecidableEq

/-- `Die::friction` (src/die.rs): `speed += kind.acceleration`. -/
def friction (kind : D) (speed : Int) : Int :=
  speed + kind.acceleration

/-- `D.acceleration` is at most `-1` for every kind. -/
theorem acceleration_le_neg_one (k : D) : k.acceleration ≤ -1 := by
  cases k <;> decide

/-- `Die::roll` (src/die.rs): the step loop.  While `speed > 0` (the stop
threshold is `0`), each iteration flips the face, runs `detect_wall`, moves,
emits an `(id, face, position)` event, and applies friction for the next
iteration.  The random draws of step `n` (the raw flip value and the two
`bounce` draws) are supplied by the oracle `ora n`.  Returns the list of
emitted events. -/
def roll (w h id : Nat) (k : D) (ora : Nat → Nat × Bool × Bool) :
    Nat → DieSt → List (Nat × Nat × (Nat × Nat))
  | n, s =>
    if hs : 0 < s.speed then
      let face := displayValue k (ora n).1
      let dir' := detect_wall w h face k (ora n).2.1 (ora n).2.2 s.pos.1 s.pos.2 s.dir
      let pos' := movement s.pos dir'
      (id, face, pos') :: roll w h id k ora (n + 1) ⟨face, pos', friction k s.speed, dir'⟩
    else []
termination_by n s => s.speed.toNat
decreasing_by
  simp only [friction]
  have := acceleration_le_neg_one k
  omega

/-- `Table::percent_sum` (src/table.rs): refuses a results table with more
than two entries, otherwise sums the recorded faces, substituting 100 when
that sum is zero. -/
def percent_sum (results : List Nat) : Option Nat :=
  if results.length > 2 then none
  else
    let sum := results.sum
    some (if sum = 0 then 100 else sum)

/-- `Table::advantage` (src/table.rs): refuses a results table with more
than two entries, otherwise the maximum recorded face (`none` when empty). -/
def advantage (results : List Nat) : Option Nat :=
  if results.length > 2 then none
  else results.max?

/-- `Table::disadvantage` (src/table.rs): refuses a results table with more
than two entries, otherwise the minimum recorded face (`none` when empty). -/
def disadvantage (results : List Nat) : Option Nat :=
  if results.length > 2 then none
  else results.min?

/-- The Advantage branch of `Table::do_math` (src/table.rs): the selected
face plus the command's modifier (`selected as i16 + modifier`). -/
def advOutcome (results : List Nat) (modifier : Int) : Option Int :=
  (advantage results).map (fun selected => (selected : Int) + modifier)

/-- The Disadvantage branch of `Table::do_math` (src/table.rs). -/
def disadvOutcome (results : List Nat) (modifier : Int) : Option Int :=
  (disadvantage results).map (fun selected => (selected : Int) + modifier)

/-- The Percentile branch of `Table::do_math` (src/table.rs): the percent
sum plus the command's modifier (`sum as i16 + modifier`). -/
def percentOutcome (results : List Nat) (modifier : Int) : Option Int :=
  (percent_sum results).map (fun sum => (sum : Int) + modifier)

/-- The Normal branch of `Table::do_math` / `Table::show_math`
(src/table.rs): for each command `(coefficient, modifier)` in order, drain
that command's `coefficient` results from the front of the id-sorted results
list into a `running_total` and print the sub-total
`running_total + modifier`; the remaining results go to the next command. -/
def normal_subtotals : List (Nat × Int) → List Nat → List Int
  | [], _ => []
  | (coefficient, modifier) :: commands, results =>
    (((results.take coefficient).sum : Int) + modifier)
      :: normal_subtotals commands (results.drop coefficient)

/-- `Table::full_sum` (src/table.rs): all recorded faces plus all
modifiers. -/
def full_sum (results : List Nat) (modifiers : List Int) : Int :=
  (results.sum : Int) + modifiers.sum

/-- C1: for a Percentile roll with exactly two recorded faces, a tens face in
{0,10,...,90} and a ones face in {0..9}, the resolved outcome is
tens + ones + modifier, except that when both faces are 0 the pre-modifier
sum is 100; and the resolution returns no result whenever more than two
results are present. -/
theorem C1_percentile_outcome (tens ones : Nat) (m : Int)
    (ht : tens ∈ [0, 10, 20, 30, 40, 50, 60, 70, 80, 90]) (ho : ones ≤ 9) :
    percentOutcome [tens, ones] m =
      some (if tens = 0 ∧ ones = 0 then 100 + m else (tens : Int) + ones + m) ∧
    ∀ results : List Nat, 2 < results.length → percentOutcome results m = none := by
  constructor
  · by_cases h0 : tens = 0 ∧ ones = 0
    · obtain ⟨h1, h2⟩ := h0
      subst h1; subst h2
      simp [percentOutcome, percent_sum]
    · have hsum : tens + ones ≠ 0 := by omega
      simp only [percentOutcome, percent_sum, List.length_cons, List.length_nil,
        List.sum_cons, List.sum_nil, Nat.add_zero]
      rw [if_neg (by omega), if_neg hsum, if_neg h0]
      simp [Option.map]
  · intro results hlen
    simp [percentOutcome, percent_sum, hlen]

/-- C1 witness: a double zero resolves to 100 plus the modifier, and a
three-entry results table is refused. -/
theorem C1_percentile_outcome_witness :
    percentOutcome [0, 0] 5 = some 105 ∧ percentOutcome [10, 2, 3] 5 = none := by
  have h := C1_percentile_outcome 0 0 5 (by decide) (by decide)
  exact ⟨by simpa using h.1, h.2 [10, 2, 3] (by decide)⟩

/-- C3: for an Advantage roll with exactly two recorded faces the outcome is
max(face_0, face_1) + modifier, for Disadvantage min(face_0, face_1) +
modifier, and with more than two recorded faces both resolvers fail with an
assessment error (return no result). -/
theorem C3_advantage_disadvantage (a b : Nat) (m : Int) :
    advOutcome [a, b] m = some ((max a b : Nat) + m) ∧
    disadvOutcome [a, b] m = some ((min a b : Nat) + m) ∧
    ∀ results : List Nat, 2 < results.length →
      advantage results = none ∧ disadvantage results = none := by
  refine ⟨?_, ?_, ?_⟩
  · simp [advOutcome, advantage, List.max?]
  · simp [disadvOutcome, disadvantage, List.min?]
  · intro results hlen
    exact ⟨by simp [advantage, hlen], by simp [disadvantage, hlen]⟩

/-- C3 witness: faces {15, 20} give 20 on Advantage and 15 on Disadvantage
(zero modifier), and three faces are refused by both resolvers. -/
theorem C3_advantage_disadvantage_witness :
    advOutcome [15, 20] 0 = some 20 ∧ disadvOutcome [15, 20] 0 = some 15 ∧
    advantage [1, 2, 3] = none ∧ disadvantage [1, 2, 3] = none := by
  have h := C3_advantage_disadvantage 15 20 0
  have h3 := h.2.2 [1, 2, 3] (by decide)
  exact ⟨by simpa using h.1, by simpa using h.2.1, h3.1, h3.2⟩

/-- C7: the fixed bounce table.  With the redirect draw false a cardinal
direction reverses straight back along the wall-normal axis; with the
redirect draw true the binary draw picks one of the two diagonals adjacent
to the straight reflection; and each diagonal direction has exactly two
non-redirect outcomes and two redirect outcomes depending on whether the
collision was against a wall or a floor/ceiling, per the 16-entry table. -/
theorem C7_bounce_table :
    (∀ wall opt, bounce .up wall false opt = .down ∧ bounce .down wall false opt = .up ∧
      bounce .left wall false opt = .right ∧ bounce .right wall false opt = .left) ∧
    (∀ wall, bounce .up wall true false = .downLeft ∧ bounce .up wall true true = .downRight ∧
      bounce .down wall true false = .upLeft ∧ bounce .down wall true true = .upRight ∧
      bounce .left wall true false = .upRight ∧ bounce .left wall true true = .downRight ∧
      bounce .right wall true false = .upLeft ∧ bounce .right wall true true = .downLeft) ∧
    (∀ opt,
      bounce .upLeft false false opt = .downLeft ∧ bounce .upLeft true false opt = .upRight ∧
      bounce .upLeft false true opt = .down ∧ bounce .upLeft true true opt = .right ∧
      bounce .upRight false false opt = .downRight ∧ bounce .upRight true false opt = .upLeft ∧
      bounce .upRight false true opt = .down ∧ bounce .upRight true true opt = .left ∧
      bounce .downLeft false false opt = .upLeft ∧ bounce .downLeft true false opt = .downRight ∧
      bounce .downLeft false true opt = .up ∧ bounce .downLeft true true opt = .right ∧
      bounce .downRight false false opt = .upRight ∧ bounce .downRight true false opt = .downLeft ∧
      bounce .downRight false true opt = .up ∧ bounce .downRight true true opt = .left) := by
  decide

set_option maxHeartbeats 1000000 in
/-- C8: the collision resolver never changes the die's position, and when no
collision is detected it leaves the direction unchanged. -/
theorem C8_resolver_frame (w h face : Nat) (kind : D) (redirect opt : Bool) (s : DieKin) :
    (detect_wall_st w h face kind redirect opt s).pos = s.pos ∧
    (collision_detected w h face kind s.pos.1 s.pos.2 s.dir = false →
      (detect_wall_st w h face kind redirect opt s).dir = s.dir) := by
  refine ⟨rfl, ?_⟩
  intro hcol
  show detect_wall w h face kind redirect opt s.pos.1 s.pos.2 s.dir = s.dir
  unfold detect_wall
  unfold collision_detected at hcol
  split_ifs at hcol ⊢ <;> simp_all

/-- C8 witness: a die in the interior moving up keeps both its position and
its direction. -/
theorem C8_resolver_frame_witness :
    (detect_wall_st 80 24 5 D.six false false ⟨(40, 12), .up⟩).pos = (40, 12) ∧
    (detect_wall_st 80 24 5 D.six false false ⟨(40, 12), .up⟩).dir = .up :=
  ⟨(C8_resolver_frame 80 24 5 D.six false false ⟨(40, 12), .up⟩).1,
   (C8_resolver_frame 80 24 5 D.six false false ⟨(40, 12), .up⟩).2 (by decide)⟩

/-- C9 counterexample: with exactly one recorded face of value 0,
`percent_sum` returns 100, not that face's value 0 — the claim's "with
exactly one recorded face ... percent_sum returns that face's value" fails
at face 0 because the 100-substitution triggers on any zero total. -/
theorem C9_counterexample :
    percent_sum [0] = some 100 ∧ some 100 ≠ (some 0 : Option Nat) := by
  decide

/-- C9 amended: the die-count guard rejects only tables with strictly more
than two entries; with one recorded face, advantage and disadvantage return
that face and `percent_sum` returns that face's value when it is nonzero
(and 100 when it is 0); with zero recorded faces, advantage and disadvantage
return no result while `percent_sum` returns 100. -/
theorem C9_small_count_behaviour :
    (∀ a : Nat, advantage [a] = some a ∧ disadvantage [a] = some a) ∧
    (∀ a : Nat, a ≠ 0 → percent_sum [a] = some a) ∧
    percent_sum [0] = some 100 ∧
    advantage [] = none ∧ disadvantage [] = none ∧
    percent_sum [] = some 100 := by
  refine ⟨?_, ?_, by decide, by decide, by decide, by decide⟩
  · intro a
    exact ⟨by simp [advantage, List.max?], by simp [disadvantage, List.min?]⟩
  · intro a ha
    simp [percent_sum, ha]

/-- C9 witness: one face of 7 passes through all three resolvers. -/
theorem C9_small_count_behaviour_witness :
    advantage [7] = some 7 ∧ disadvantage [7] = some 7 ∧ percent_sum [7] = some 7 :=
  ⟨(C9_small_count_behaviour.1 7).1, (C9_small_count_behaviour.1 7).2,
   C9_small_count_behaviour.2.1 7 (by decide)⟩

/-- C10: the two-digit predicate holds exactly when the displayed face is at
least 10 or the kind is PercentTens; every PercentTens die (even showing 0)
is capped one column short of the right wall, and any kind showing a face of
at least 10 is capped. -/
theorem C10_two_digit_cap :
    (∀ face kind, is_two_digits face kind = true ↔ (10 ≤ face ∨ kind = D.percentTens)) ∧
    is_two_digits 0 D.percentTens = true ∧
    (∀ w face kind, is_two_digits face kind = true → rWall w face kind = w - 1) ∧
    (∀ w face kind, is_two_digits face kind = false → rWall w face kind = w) := by
  refine ⟨?_, by decide, ?_, ?_⟩
  · intro face kind
    simp [is_two_digits]
  · intro w face kind hh
    simp [rWall, hh]
  · intro w face kind hh
    simp [rWall, hh]

/-- C10 witness: a PercentTens die showing 0 is capped at column 79 of an
80-column arena; a d6 showing 9 is not capped; a d12 showing 11 is capped. -/
theorem C10_two_digit_cap_witness :
    rWall 80 0 D.percentTens = 79 ∧ rWall 80 9 D.six = 80 ∧ rWall 80 11 D.twelve = 79 :=
  ⟨C10_two_digit_cap.2.2.1 80 0 D.percentTens (by decide),
   C10_two_digit_cap.2.2.2 80 9 D.six (by decide),
   C10_two_digit_cap.2.2.1 80 11 D.twelve (by decide)⟩

/-- C2 counterexample: at the top-left corner of an 80×24 arena a die moving
UpRight — a direction with no component into the left wall — nevertheless
triggers the corner-collision response (the direction is changed to
DownRight rather than left unchanged), so corner collisions are not detected
only for directions pointing into both walls of the corner. -/
theorem C2_counterexample :
    detect_wall 80 24 5 D.six false false 1 1 .upRight = .downRight ∧
    Direction.downRight ≠ Direction.upRight := by
  constructor
  · rw [dw_zone1 80 24 5 D.six false false 1 1 .upRight (by decide) (by decide)]
    decide
  · decide

/-- C2 amended: in each corner zone (taking the guard order of
`detect_wall` into account) a collision is detected for every direction
except the three that point strictly away from the corner — the outward
diagonal and its two adjacent cardinals (at top-left: Down, Right,
DownRight) — including directions with a component into only one wall and
the stationary direction; on a detected corner collision the direction is
always set to the exact diagonal opposite of the corner, deterministically
with no randomness. -/
theorem C2_corner_collision_rule (w h face : Nat) (kind : D) (rd op : Bool)
    (c r : Nat) (dir : Direction) :
    (c ≤ 1 → r ≤ 1 →
      detect_wall w h face kind rd op c r dir =
        if dir = .down ∨ dir = .right ∨ dir = .downRight then dir else .downRight) ∧
    (¬ c ≤ 1 → rWall w face kind ≤ c → r ≤ 1 →
      detect_wall w h face kind rd op c r dir =
        if dir = .down ∨ dir = .left ∨ dir = .downLeft then dir else .downLeft) ∧
    (c ≤ 1 → ¬ r ≤ 1 → h ≤ r →
      detect_wall w h face kind rd op c r dir =
        if dir = .up ∨ dir = .right ∨ dir = .upRight then dir else .upRight) ∧
    (¬ c ≤ 1 → ¬ r ≤ 1 → rWall w face kind ≤ c → h ≤ r →
      detect_wall w h face kind rd op c r dir =
        if dir = .up ∨ dir = .left ∨ dir = .upLeft then dir else .upLeft) := by
  refine ⟨?_, ?_, ?_, ?_⟩
  · intro h1 h2
    rw [dw_zone1 w h face kind rd op c r dir h1 h2]
    cases dir <;> simp [willCollide]
  · intro h1 h2 h3
    rw [dw_zone2 w h face kind rd op c r dir h1 h2 h3]
    cases dir <;> simp [willCollide]
  · intro h1 h2 h3
    rw [dw_zone3 w h face kind rd op c r dir h1 h2 h3]
    cases dir <;> simp [willCollide]
  · intro h1 h2 h3 h4
    rw [dw_zone4 w h face kind rd op c r dir h1 h2 h3 h4]
    cases dir <;> simp [willCollide]

/-- C2 witness: top-left corner moving UpLeft becomes DownRight; top-left
corner moving Down is left unchanged; bottom-right corner (with a two-digit
face) moving DownRight becomes UpLeft. -/
theorem C2_corner_collision_rule_witness :
    detect_wall 80 24 5 D.six false false 1 1 .upLeft = .downRight ∧
    detect_wall 80 24 5 D.six true false 1 1 .down = .down ∧
    detect_wall 80 24 12 D.twelve false true 80 24 .downRight = .upLeft := by
  refine ⟨?_, ?_, ?_⟩
  · have := (C2_corner_collision_rule 80 24 5 D.six false false 1 1 .upLeft).1
      (by decide) (by decide)
    simpa using this
  · have := (C2_corner_collision_rule 80 24 5 D.six true false 1 1 .down).1
      (by decide) (by decide)
    simpa using this
  · have := (C2_corner_collision_rule 80 24 12 D.twelve false true 80 24 .downRight).2.2.2
      (by decide) (by decide) (by decide) (by decide)
    simpa using this

/-- C5 counterexample: the unrestricted claim fails — in a degenerate
1-column arena an in-bounds die at (1,2) moving Right slips through the
left-wall guard and escapes the arena to column 2; and a die already out of
bounds at row 30 of an 80×24 arena bounces but remains out of bounds. -/
theorem C5_counterexample :
    (movement (1, 2) (detect_wall 1 5 5 D.six false false 1 2 .right) = (2, 2) ∧
      ¬ inBounds 1 5 (2, 2)) ∧
    (movement (50, 30) (detect_wall 80 24 5 D.six false false 50 30 .down) = (50, 29) ∧
      ¬ inBounds 80 24 (50, 29)) := by
  constructor
  · constructor
    · rw [dw_zone5 1 5 5 D.six false false 1 2 .right (by decide) (by decide) (by decide)]
      decide
    · decide
  · constructor
    · rw [dw_zone7 80 24 5 D.six false false 50 30 .down (by decide) (by decide) (by decide)]
      decide
    · decide

set_option maxHeartbeats 1000000 in
/-- C5 amended: in an arena of width and height at least 2, a die at an
in-bounds position (1 ≤ col ≤ width, 1 ≤ row ≤ height) is still in bounds
after one step of `detect_wall` followed by `movement`, for every face,
kind, direction and pair of random draws; the position may exceed the
two-digit rendering cap (one column short of the right wall) by at most that
one capped column, never the true wall. -/
theorem C5_bounds_invariant (w h face : Nat) (kind : D) (rd op : Bool)
    (c r : Nat) (dir : Direction)
    (hw : 2 ≤ w) (hh : 2 ≤ h) (hc1 : 1 ≤ c) (hcw : c ≤ w) (hr1 : 1 ≤ r) (hrh : r ≤ h) :
    inBounds w h (movement (c, r) (detect_wall w h face kind rd op c r dir)) := by
  have hR1 : w - 1 ≤ rWall w face kind := by unfold rWall; split <;> omega
  have hR2 : rWall w face kind ≤ w := by unfold rWall; split <;> omega
  by_cases g1 : c ≤ 1 ∧ r ≤ 1
  · rw [dw_zone1 w h face kind rd op c r dir g1.1 g1.2]
    cases dir <;> simp [willCollide, movement, inBounds] <;> omega
  by_cases g2 : rWall w face kind ≤ c ∧ r ≤ 1
  · rw [dw_zone2 w h face kind rd op c r dir (fun hc => g1 ⟨hc, g2.2⟩) g2.1 g2.2]
    cases dir <;> simp [willCollide, movement, inBounds] <;> omega
  by_cases g3 : c ≤ 1 ∧ h ≤ r
  · rw [dw_zone3 w h face kind rd op c r dir g3.1 (fun hr => g1 ⟨g3.1, hr⟩) g3.2]
    cases dir <;> simp [willCollide, movement, inBounds] <;> omega
  by_cases g4 : rWall w face kind ≤ c ∧ h ≤ r
  · rw [dw_zone4 w h face kind rd op c r dir (fun hc => g3 ⟨hc, g4.2⟩)
      (fun hr => g2 ⟨g4.1, hr⟩) g4.1 g4.2]
    cases dir <;> simp [willCollide, movement, inBounds] <;> omega
  by_cases g5 : c ≤ 1
  · rw [dw_zone5 w h face kind rd op c r dir g5 (fun hr => g1 ⟨g5, hr⟩) (fun hf => g3 ⟨g5, hf⟩)]
    cases dir <;> cases rd <;> cases op <;>
      simp [willCollide, bounce, movement, inBounds] <;> omega
  by_cases g6 : rWall w face kind ≤ c
  · rw [dw_zone6 w h face kind rd op c r dir g5 g6 (fun hr => g2 ⟨g6, hr⟩)
      (fun hf => g4 ⟨g6, hf⟩)]
    cases dir <;> cases rd <;> cases op <;>
      simp [willCollide, bounce, movement, inBounds] <;> omega
  by_cases g7 : h ≤ r
  · rw [dw_zone7 w h face kind rd op c r dir g5 g6 g7]
    cases dir <;> cases rd <;> cases op <;>
      simp [willCollide, bounce, movement, inBounds] <;> omega
  by_cases g8 : r ≤ 1
  · rw [dw_zone8 w h face kind rd op c r dir g5 g6 g7 g8]
    cases dir <;> cases rd <;> cases op <;>
      simp [willCollide, bounce, movement, inBounds] <;> omega
  · rw [dw_zone9 w h face kind rd op c r dir g5 g6 g7 g8]
    cases dir <;> simp [movement, inBounds] <;> omega

/-- C5 witness: a die at the top-left corner of an 80×24 arena moving UpLeft
stays in bounds after the step. -/
theorem C5_bounds_invariant_witness :
    inBounds 80 24 (movement (1, 1) (detect_wall 80 24 5 D.six false false 1 1 .upLeft)) :=
  C5_bounds_invariant 80 24 5 D.six false false 1 1 .upLeft (by decide) (by decide)
    (by decide) (by decide) (by decide) (by decide)

/-- The number of events emitted by `roll` is bounded by the starting speed:
friction removes at least one unit of speed per step. -/
theorem roll_length_le (w h id : Nat) (k : D) (ora : Nat → Nat × Bool × Bool)
    (n : Nat) (s : DieSt) :
    (roll w h id k ora n s).length ≤ s.speed.toNat := by
  induction n, s using roll.induct w h id k ora with
  | case1 n s hs face dir' pos' ih =>
    rw [roll, dif_pos hs]
    simp only [List.length_cons]
    have hacc := acceleration_le_neg_one k
    have h2 : (friction k s.speed).toNat + 1 ≤ s.speed.toNat := by
      simp only [friction]
      omega
    exact le_trans (Nat.add_le_add_right ih 1) h2
  | case2 n s hs =>
    rw [roll, dif_neg hs]
    simp

/-- C6: every kind's acceleration is negative, friction strictly decreases
the speed at every step, the step loop emits nothing once speed ≤ 0, and the
whole run is a finite event list of at most `speed` steps (one event per
step). -/
theorem C6_speed_decay_termination (w h id : Nat) (k : D)
    (ora : Nat → Nat × Bool × Bool) (n : Nat) (s : DieSt) :
    k.acceleration < 0 ∧
    friction k s.speed < s.speed ∧
    (s.speed ≤ 0 → roll w h id k ora n s = []) ∧
    (roll w h id k ora n s).length ≤ s.speed.toNat := by
  refine ⟨?_, ?_, ?_, roll_length_le w h id k ora n s⟩
  · have := acceleration_le_neg_one k
    omega
  · have := acceleration_le_neg_one k
    simp only [friction]
    omega
  · intro hs
    rw [roll, dif_neg (by omega)]

/-- C6 witness: a die that starts at the stop threshold emits no events, and
a die starting at speed 8 emits at most 8 events. -/
theorem C6_speed_decay_termination_witness :
    roll 10 10 0 D.six (fun _ => (3, false, false)) 0 ⟨3, (5, 5), 0, .up⟩ = [] ∧
    (roll 10 10 0 D.six (fun _ => (3, false, false)) 0 ⟨3, (5, 5), 8, .up⟩).length ≤ 8 :=
  ⟨(C6_speed_decay_termination 10 10 0 D.six (fun _ => (3, false, false)) 0
      ⟨3, (5, 5), 0, .up⟩).2.2.1 (by decide),
   (C6_speed_decay_termination 10 10 0 D.six (fun _ => (3, false, false)) 0
      ⟨3, (5, 5), 8, .up⟩).2.2.2⟩

/-- The i-th sub-total produced by the Normal drain loop is the sum of that
command's `coefficient` consecutive faces — the faces skipped are exactly
the coefficients of the earlier commands — plus that command's modifier. -/
theorem normal_subtotals_getElem (cmds : List (Nat × Int)) (results : List Nat) :
    ∀ (i coefficient : Nat) (modifier : Int), cmds[i]? = some (coefficient, modifier) →
      (normal_subtotals cmds results)[i]? =
        some (((results.drop (((cmds.take i).map Prod.fst).sum)).take coefficient).sum
          + modifier) := by
  induction cmds generalizing results with
  | nil =>
    intro i coefficient modifier hget
    simp at hget
  | cons hd tl ih =>
    intro i coefficient modifier hget
    obtain ⟨hc, hm⟩ := hd
    cases i with
    | zero =>
      simp only [List.getElem?_cons_zero, Option.some_inj] at hget
      obtain ⟨h1, h2⟩ := Prod.mk.injEq .. ▸ hget
      subst h1; subst h2
      simp [normal_subtotals]
    | succ i =>
      simp only [List.getElem?_cons_succ] at hget
      simp only [normal_subtotals, List.getElem?_cons_succ]
      rw [ih (results.drop hc) i coefficient modifier hget]
      simp [List.drop_drop, Nat.add_comm]

/-- The grand total of a Normal roll (`Table::full_sum`) equals the sum of
the per-command sub-totals, provided the commands' coefficients consume the
whole results list. -/
theorem full_sum_eq_subtotals (cmds : List (Nat × Int)) (results : List Nat)
    (hlen : results.length = (cmds.map Prod.fst).sum) :
    full_sum results (cmds.map Prod.snd) = (normal_subtotals cmds results).sum := by
  induction cmds generalizing results with
  | nil =>
    have : results = [] := List.length_eq_zero.mp (by simpa using hlen)
    subst this
    simp [full_sum, normal_subtotals]
  | cons hd tl ih =>
    obtain ⟨hc, hm⟩ := hd
    simp only [List.map_cons, List.sum_cons] at hlen
    have hlen2 : (results.drop hc).length = (tl.map Prod.fst).sum := by
      simp only [List.length_drop]
      omega
    have h2 := ih (results.drop hc) hlen2
    have h3 : ((results.take hc).sum : Int) + ((results.drop hc).sum : Int)
        = (results.sum : Int) := by
      exact_mod_cast List.sum_take_add_sum_drop results hc
    simp only [full_sum, normal_subtotals, List.map_cons, List.sum_cons] at h2 ⊢
    omega

/-- C4: for a Normal roll, each command's sub-total is the sum of its
`coefficient` consecutive face values taken from the face list in id order
plus that command's modifier, and the grand total computed by `full_sum`
equals the sum of all sub-totals. -/
theorem C4_normal_totals (cmds : List (Nat × Int)) (results : List Nat)
    (hlen : results.length = (cmds.map Prod.fst).sum) :
    (∀ (i coefficient : Nat) (modifier : Int), cmds[i]? = some (coefficient, modifier) →
      (normal_subtotals cmds results)[i]? =
        some (((results.drop (((cmds.take i).map Prod.fst).sum)).take coefficient).sum
          + modifier)) ∧
    full_sum results (cmds.map Prod.snd) = (normal_subtotals cmds results).sum :=
  ⟨fun i coefficient modifier hget =>
      normal_subtotals_getElem cmds results i coefficient modifier hget,
   full_sum_eq_subtotals cmds results hlen⟩

/-- C4 witness: "3d6+2" with draws {4,2,5} gives the sub-total
4+2+5+2 = 13, which is also the grand total. -/
theorem C4_normal_totals_witness :
    (normal_subtotals [(3, (2 : Int))] [4, 2, 5])[0]? = some 13 ∧
    full_sum [4, 2, 5] [(2 : Int)] = (normal_subtotals [(3, (2 : Int))] [4, 2, 5]).sum := by
  have h := C4_normal_totals [(3, (2 : Int))] [4, 2, 5] (by decide)
  refine ⟨?_, ?_⟩
  · have h0 := h.1 0 3 2 (by decide)
    simpa using h0
  · have h1 := h.2
    simpa using h1

end Dice
